import Mathlib

/-!
Shallow embedding of `pyod/models/mcd.py` (class `MCD`, a detector wrapper
around a robust-covariance estimator) together with the behaviour of its
collaborators that the module relies on.

Conventions of the embedding:
* Numeric sample values and anomaly scores are rationals (`ℚ`); a data
  matrix is a list of rows, each row a list of rationals.
* Python exceptions are values of `PyErr`; a method that can raise returns
  `Except PyErr _`.  `MCD.fit` mutates `self` in place in Python, so its
  embedding returns the updated wrapper state, and on failure it returns the
  error together with the state as mutated up to the point of failure.
* The external FastMCD computation (`sklearn.covariance.MinCovDet.fit`) is
  out of scope per the specification; it is abstracted as an oracle that maps
  the forwarded configuration and the data either to a fitted-estimator
  record or to a failure.  `MinCovDet.fit` ignores its optional `y` argument
  (present only for API consistency), so the oracle takes no `y`.
-/

/-- Error taxonomy of the module: malformed input, use before `fit`, and a
failure of the underlying covariance estimation. -/
inductive PyErr where
  | invalidInput
  | notFitted
  | estimatorFailure
deriving DecidableEq, Inhabited

/-- A row of a data matrix: one sample's feature values. -/
abbrev Row := List ℚ

/-- A data matrix: a list of samples. -/
abbrev Mat := List Row

/-- The configuration forwarded verbatim from the wrapper to the underlying
estimator: `store_precision`, `assume_centered`, `support_fraction`,
`random_state` (from `MCD.fit`, which constructs
`MinCovDet(store_precision=..., assume_centered=..., support_fraction=...,
random_state=...)`). -/
structure MinCovDetParams where
  store_precision : Bool
  assume_centered : Bool
  support_fraction : Option ℚ
  random_state : Option ℕ
deriving DecidableEq

/-- The observable state of a fitted robust-covariance estimator: the fitted
attributes the wrapper forwards (`raw_location_`, `raw_covariance_`,
`raw_support_`, `location_`, `covariance_`, `precision_`, `support_`) and
`dist_`, the per-training-sample Mahalanobis distances that `MCD.fit` reads
as the raw anomaly scores. -/
structure FittedMCD where
  raw_location_ : Row
  raw_covariance_ : Mat
  raw_support_ : List Bool
  location_ : Row
  covariance_ : Mat
  precision_ : Mat
  support_ : List Bool
  dist_ : List ℚ
deriving DecidableEq

/-- The wrapper's `detector_` attribute over its lifetime: after
`self.detector_ = MinCovDet(...)` it holds a constructed-but-unfitted
estimator; after a successful `self.detector_.fit(X)` it holds a fitted
one. -/
inductive DetectorState where
  | unfitted (params : MinCovDetParams)
  | fitted (f : FittedMCD)
deriving DecidableEq

/-- The oracle abstracting the external FastMCD computation: configuration
and data to either a fitted estimator or a raised error. -/
abbrev MCDOracle := MinCovDetParams → Mat → Except PyErr FittedMCD

/-- The wrapper `MCD`: the five configuration fields stored verbatim by
`__init__` (`contamination` via the base class), plus the attributes that
come into existence during `fit` (`_classes`, `detector_`,
`decision_scores_`, `threshold_`, `labels_`), absent (`none`) before. -/
structure MCD where
  contamination : ℚ
  store_precision : Bool
  assume_centered : Bool
  support_fraction : Option ℚ
  random_state : Option ℕ
  classes_ : Option ℕ
  detector_ : Option DetectorState
  decision_scores_ : Option (List ℚ)
  threshold_ : Option ℚ
  labels_ : Option (List ℕ)
deriving DecidableEq

/-- Embedding of `MCD.__init__`: stores the five configuration values verbatim and
performs no validation; no fitted attribute exists yet. -/
def MCD.init (contamination : ℚ) (store_precision : Bool)
    (assume_centered : Bool) (support_fraction : Option ℚ)
    (random_state : Option ℕ) : MCD :=
  { contamination := contamination
    store_precision := store_precision
    assume_centered := assume_centered
    support_fraction := support_fraction
    random_state := random_state
    classes_ := none
    detector_ := none
    decision_scores_ := none
    threshold_ := none
    labels_ := none }

/-- The configuration record `MCD.fit` forwards to the estimator
constructor. -/
def MCD.params (m : MCD) : MinCovDetParams :=
  { store_precision := m.store_precision
    assume_centered := m.assume_centered
    support_fraction := m.support_fraction
    random_state := m.random_state }

/-- Modelled from the spec: the external generic array-validation routine
(`sklearn.utils.validation.check_array`, not part of this repository) —
"fails with an `InvalidInput` error on malformed shapes, non-numeric
content, or NaN/Inf".  Over `ℚ` the content is always numeric and finite,
so the checks that remain are shape checks: at least one sample, at least
one feature, and a rectangular (non-ragged) matrix. -/
def check_array (X : Mat) : Except PyErr Mat :=
  match X with
  | [] => .error .invalidInput
  | r :: rs =>
    if r.length = 0 then .error .invalidInput
    else if rs.all (fun s => s.length = r.length) then .ok (r :: rs)
    else .error .invalidInput

/-- Modelled from the spec: `BaseDetector._set_n_classes` (base-class code
of this repository, not under the sources given) — "records the number of
distinct classes seen (bookkeeping for multi-class-aware consumers)"; with
no labels given the default of a binary problem is recorded. -/
def set_n_classes (y : Option (List ℕ)) : ℕ :=
  match y with
  | none => 2
  | some ys => ys.dedup.length

/-- Modelled from the spec: the number of training samples labelled as
outliers, `round(n_samples * contamination)`. -/
def outCount (n : ℕ) (c : ℚ) : ℕ :=
  (round ((n : ℚ) * c)).toNat

/-- Modelled from the spec: the training samples ordered by a stable sort of
scores ascending — each sample's index paired with its score, sorted by
score with ties kept in index order. -/
def scoreOrder (scores : List ℚ) : List (ℕ × ℚ) :=
  scores.enum.insertionSort (fun a b => a.2 ≤ b.2)

/-- Modelled from the spec: the indices of the `round(n * contamination)`
highest-scoring samples, ties at the boundary resolved by the stable
ascending order. -/
def outlierIndices (scores : List ℚ) (c : ℚ) : List ℕ :=
  ((scoreOrder scores).drop (scores.length - outCount scores.length c)).map Prod.fst

/-- Modelled from the spec: the binary training labels — label 1 for the
`round(n * contamination)` highest-scoring samples, label 0 for the rest. -/
def mcdLabels (scores : List ℚ) (c : ℚ) : List ℕ :=
  (List.range scores.length).map (fun i => if i ∈ outlierIndices scores c then 1 else 0)

/-- Modelled from the spec: the threshold — "the score value at the
`(1-contamination)` quantile position" of the scores sorted ascending,
i.e. the entry at position `n - round(n * contamination)`. -/
def mcdThreshold (scores : List ℚ) (c : ℚ) : ℚ :=
  (scores.insertionSort (fun a b => a ≤ b)).getD
    (scores.length - outCount scores.length c) 0

/-- Modelled from the spec: `BaseDetector._process_decision_scores`
(base-class code of this repository, not under the sources given) — "given
`decision_scores_` and `contamination`, computes and stores `threshold_`
and `labels_`". -/
def process_decision_scores (m : MCD) : MCD :=
  match m.decision_scores_ with
  | none => m
  | some scores =>
    { m with
      threshold_ := some (mcdThreshold scores m.contamination)
      labels_ := some (mcdLabels scores m.contamination) }

/-- Embedding of `MCD.fit`: validates `X`, records the class count from `y`, constructs a
fresh estimator from the stored configuration and assigns it to
`detector_`, fits it on `X` (the oracle; `MinCovDet.fit` ignores `y`),
reads `dist_` as `decision_scores_`, derives `threshold_` and `labels_`,
and returns the updated wrapper (Python returns `self`).  On failure the
error is returned together with the state as mutated so far. -/
def MCD.fit (oracle : MCDOracle) (m : MCD) (X : Mat) (y : Option (List ℕ)) :
    Except (PyErr × MCD) MCD :=
  match check_array X with
  | .error e => .error (e, m)
  | .ok X' =>
    let m1 : MCD := { m with classes_ := some (set_n_classes y) }
    let m2 : MCD := { m1 with detector_ := some (.unfitted m.params) }
    match oracle m.params X' with
    | .error e => .error (e, m2)
    | .ok f =>
      let m3 : MCD :=
        { m2 with
          detector_ := some (.fitted f)
          decision_scores_ := some f.dist_ }
      .ok (process_decision_scores m3)

/-- Modelled from the spec: the fitted-state guard
(`sklearn.utils.validation.check_is_fitted`, external) applied as in the
source to `['decision_scores_', 'threshold_', 'labels_']`: true exactly
when all three attributes are present. -/
def check_is_fitted (m : MCD) : Bool :=
  m.decision_scores_.isSome && m.threshold_.isSome && m.labels_.isSome

/-- The squared Mahalanobis distance of one sample from the fitted location,
with the fitted precision (inverse covariance) as the metric tensor:
`(x - location_)ᵀ · precision_ · (x - location_)`. -/
def mahaDist (f : FittedMCD) (x : Row) : ℚ :=
  let d := List.zipWith (fun a b => a - b) x f.location_
  (List.zipWith (fun a b => a * b) d
    (f.precision_.map (fun r => (List.zipWith (fun a b => a * b) r d).sum))).sum

/-- Modelled from the spec: the fitted estimator's `mahalanobis(X)`
(external) — "returns per-row distance given a fitted state", computed
against the location and covariance estimated during fit; a row whose
feature count differs from the fitted dimensionality is an `InvalidInput`
failure. -/
def FittedMCD.mahalanobis (f : FittedMCD) : Mat → Except PyErr (List ℚ)
  | [] => .ok []
  | x :: xs =>
    if x.length = f.location_.length then
      match f.mahalanobis xs with
      | .ok ds => .ok (mahaDist f x :: ds)
      | .error e => .error e
    else .error .invalidInput

/-- Embedding of `MCD.decision_function`: the fitted-state guard first, then generic
array validation, then the fitted estimator's Mahalanobis distances.  The
source method contains no assignment to `self`, so its embedding is a pure
function of the wrapper state; reading `self.detector_` when it is absent
or unfitted fails as use-before-fit. -/
def MCD.decision_function (m : MCD) (X : Mat) : Except PyErr (List ℚ) :=
  if check_is_fitted m then
    match check_array X with
    | .error e => .error e
    | .ok X' =>
      match m.detector_ with
      | some (.fitted f) => f.mahalanobis X'
      | _ => .error .notFitted
  else .error .notFitted

/-- Accessor `MCD.raw_location_`: forwards the fitted estimator's raw
robust location; fails before a successful fit. -/
def MCD.raw_location_ (m : MCD) : Except PyErr Row :=
  match m.detector_ with
  | some (.fitted f) => .ok f.raw_location_
  | _ => .error .notFitted

/-- Accessor `MCD.raw_covariance_`: forwards the fitted estimator's raw
robust covariance; fails before a successful fit. -/
def MCD.raw_covariance_ (m : MCD) : Except PyErr Mat :=
  match m.detector_ with
  | some (.fitted f) => .ok f.raw_covariance_
  | _ => .error .notFitted

/-- Accessor `MCD.raw_support_`: forwards the raw support mask; fails
before a successful fit. -/
def MCD.raw_support_ (m : MCD) : Except PyErr (List Bool) :=
  match m.detector_ with
  | some (.fitted f) => .ok f.raw_support_
  | _ => .error .notFitted

/-- Accessor `MCD.location_`: forwards the corrected robust location; fails
before a successful fit. -/
def MCD.location_ (m : MCD) : Except PyErr Row :=
  match m.detector_ with
  | some (.fitted f) => .ok f.location_
  | _ => .error .notFitted

/-- Accessor `MCD.covariance_`: forwards the corrected robust covariance;
fails before a successful fit. -/
def MCD.covariance_ (m : MCD) : Except PyErr Mat :=
  match m.detector_ with
  | some (.fitted f) => .ok f.covariance_
  | _ => .error .notFitted

/-- Accessor `MCD.precision_`: forwards the estimated precision matrix;
fails before a successful fit. -/
def MCD.precision_ (m : MCD) : Except PyErr Mat :=
  match m.detector_ with
  | some (.fitted f) => .ok f.precision_
  | _ => .error .notFitted

/-- Accessor `MCD.support_`: forwards the support mask; fails before a
successful fit. -/
def MCD.support_ (m : MCD) : Except PyErr (List Bool) :=
  match m.detector_ with
  | some (.fitted f) => .ok f.support_
  | _ => .error .notFitted

/-- A concrete fitted-estimator record on a two-feature, three-sample
training set, used to instantiate the oracle in concrete runs. -/
def demoFitted : FittedMCD :=
  { raw_location_ := [1, 2]
    raw_covariance_ := [[1, 0], [0, 1]]
    raw_support_ := [true, true, true]
    location_ := [1, 2]
    covariance_ := [[1, 0], [0, 1]]
    precision_ := [[1, 0], [0, 1]]
    support_ := [true, true, true]
    dist_ := [5, 1, 9] }

/-- A concrete oracle: the external estimator always fits and yields
`demoFitted`. -/
def demoOracle : MCDOracle := fun _ _ => .ok demoFitted

/-- A concrete oracle: the external estimator always fails. -/
def failOracle : MCDOracle := fun _ _ => .error .estimatorFailure

/-- A concrete freshly constructed wrapper with contamination 2/5. -/
def demoMCD : MCD := MCD.init (2/5) true false none none

/-- A concrete three-sample, two-feature training matrix. -/
def demoX : Mat := [[1, 2], [3, 4], [5, 6]]

/-- The concrete wrapper state after `demoMCD` is fitted on `demoX` through
`demoOracle`. -/
def demoFittedMCD : MCD :=
  { contamination := 2/5
    store_precision := true
    assume_centered := false
    support_fraction := none
    random_state := none
    classes_ := some 2
    detector_ := some (.fitted demoFitted)
    decision_scores_ := some [5, 1, 9]
    threshold_ := some 9
    labels_ := some [0, 0, 1] }

theorem scoreOrder_fst_perm (scores : List ℚ) :
    ((scoreOrder scores).map Prod.fst).Perm (List.range scores.length) := by
  have h := (List.perm_insertionSort (fun a b : ℕ × ℚ => a.2 ≤ b.2) scores.enum).map Prod.fst
  rw [List.enum_map_fst] at h
  exact h

theorem outlierIndices_nodup (scores : List ℚ) (c : ℚ) :
    (outlierIndices scores c).Nodup := by
  unfold outlierIndices
  rw [List.map_drop]
  exact ((List.drop_sublist _ _).nodup
    ((scoreOrder_fst_perm scores).nodup_iff.mpr (List.nodup_range _)))

theorem outlierIndices_lt (scores : List ℚ) (c : ℚ) :
    ∀ i ∈ outlierIndices scores c, i < scores.length := by
  intro i hi
  unfold outlierIndices at hi
  rw [List.map_drop] at hi
  have : i ∈ (scoreOrder scores).map Prod.fst := (List.drop_sublist _ _).mem hi
  have := (scoreOrder_fst_perm scores).mem_iff.mp this
  exact List.mem_range.mp this

theorem outlierIndices_length (scores : List ℚ) (c : ℚ)
    (h : outCount scores.length c ≤ scores.length) :
    (outlierIndices scores c).length = outCount scores.length c := by
  unfold outlierIndices scoreOrder
  rw [List.length_map, List.length_drop, List.length_insertionSort, List.enum_length,
    Nat.sub_sub_self h]

theorem countP_mem_range (S : List ℕ) (n : ℕ) (hnd : S.Nodup)
    (hsub : ∀ i ∈ S, i < n) :
    (List.range n).countP (fun i => decide (i ∈ S)) = S.length := by
  rw [List.countP_eq_length_filter]
  have hfn : ((List.range n).filter (fun i => decide (i ∈ S))).Nodup :=
    (List.nodup_range n).filter _
  have hfin : ((List.range n).filter (fun i => decide (i ∈ S))).toFinset = S.toFinset := by
    ext x
    simp only [List.mem_toFinset, List.mem_filter, List.mem_range, decide_eq_true_eq]
    exact ⟨fun h => h.2, fun h => ⟨hsub x h, h⟩⟩
  calc ((List.range n).filter (fun i => decide (i ∈ S))).length
      = ((List.range n).filter (fun i => decide (i ∈ S))).toFinset.card :=
        (List.toFinset_card_of_nodup hfn).symm
    _ = S.toFinset.card := by rw [hfin]
    _ = S.length := List.toFinset_card_of_nodup hnd

theorem count_one_mcdLabels (scores : List ℚ) (c : ℚ)
    (h : outCount scores.length c ≤ scores.length) :
    (mcdLabels scores c).count 1 = outCount scores.length c := by
  unfold mcdLabels
  rw [List.count_eq_countP, List.countP_map]
  have hc : ((fun x => x == 1) ∘ fun i => if i ∈ outlierIndices scores c then 1 else 0)
      = fun i => decide (i ∈ outlierIndices scores c) := by
    funext i
    by_cases hi : i ∈ outlierIndices scores c <;> simp [hi]
  rw [hc, countP_mem_range _ _ (outlierIndices_nodup scores c) (outlierIndices_lt scores c),
    outlierIndices_length scores c h]

theorem mcdLabels_mem (scores : List ℚ) (c : ℚ) :
    ∀ l ∈ mcdLabels scores c, l = 0 ∨ l = 1 := by
  intro l hl
  unfold mcdLabels at hl
  obtain ⟨i, _, hi⟩ := List.mem_map.mp hl
  by_cases h : i ∈ outlierIndices scores c
  · right; rw [← hi]; simp [h]
  · left; rw [← hi]; simp [h]

theorem outCount_le (n : ℕ) (c : ℚ) (h1 : c < 1/2) :
    outCount n c ≤ n := by
  unfold outCount
  rw [Int.toNat_le, round_eq, Int.floor_le_iff]
  push_cast
  nlinarith [mul_le_mul_of_nonneg_left (le_of_lt h1) (by positivity : (0:ℚ) ≤ (n:ℚ)),
    Nat.cast_nonneg (α := ℚ) n]

theorem mahalanobis_ok (f : FittedMCD) (X : Mat)
    (h : ∀ r ∈ X, r.length = f.location_.length) :
    f.mahalanobis X = .ok (X.map (mahaDist f)) := by
  induction X with
  | nil => rfl
  | cons x xs ih =>
    unfold FittedMCD.mahalanobis
    rw [if_pos (h x (List.mem_cons_self x xs)),
      ih (fun r hr => h r (List.mem_cons_of_mem x hr))]
    rfl

theorem mahalanobis_mismatch (f : FittedMCD) (x : Row) (xs : Mat)
    (h : x.length ≠ f.location_.length) :
    f.mahalanobis (x :: xs) = .error .invalidInput := by
  unfold FittedMCD.mahalanobis
  rw [if_neg h]

theorem check_array_ok_iff (X X' : Mat) (h : check_array X = .ok X') :
    X' = X ∧ X ≠ [] ∧ ∃ d, 0 < d ∧ ∀ r ∈ X, r.length = d := by
  match X with
  | [] => exact absurd h (by simp [check_array])
  | r :: rs =>
    by_cases h0 : r.length = 0
    · simp only [check_array, if_pos h0] at h
      exact Except.noConfusion h
    · simp only [check_array, if_neg h0] at h
      by_cases h1 : rs.all (fun s => s.length = r.length)
      · rw [if_pos h1] at h
        refine ⟨(Except.ok.injEq _ _).mp h.symm, by simp, r.length, Nat.pos_of_ne_zero h0, ?_⟩
        intro s hs
        rcases List.mem_cons.mp hs with rfl | hs
        · rfl
        · exact of_decide_eq_true (List.all_eq_true.mp h1 s hs)
      · rw [if_neg h1] at h; exact absurd h (by simp)

theorem fit_ok (oracle : MCDOracle) (m : MCD) (X X' : Mat) (y : Option (List ℕ))
    (f : FittedMCD) (hX : check_array X = .ok X') (ho : oracle m.params X' = .ok f) :
    MCD.fit oracle m X y = .ok
      { m with
        classes_ := some (set_n_classes y)
        detector_ := some (.fitted f)
        decision_scores_ := some f.dist_
        threshold_ := some (mcdThreshold f.dist_ m.contamination)
        labels_ := some (mcdLabels f.dist_ m.contamination) } := by
  simp only [MCD.fit, hX, ho]
  rfl

theorem fit_ok_inv (oracle : MCDOracle) (m : MCD) (X : Mat) (y : Option (List ℕ))
    (s : MCD) (h : MCD.fit oracle m X y = .ok s) :
    ∃ X' f, check_array X = .ok X' ∧ oracle m.params X' = .ok f ∧
      s = { m with
        classes_ := some (set_n_classes y)
        detector_ := some (.fitted f)
        decision_scores_ := some f.dist_
        threshold_ := some (mcdThreshold f.dist_ m.contamination)
        labels_ := some (mcdLabels f.dist_ m.contamination) } := by
  cases hX : check_array X with
  | error e =>
    simp only [MCD.fit, hX] at h
    exact Except.noConfusion h
  | ok X' =>
    cases ho : oracle m.params X' with
    | error e =>
      simp only [MCD.fit, hX, ho] at h
      exact Except.noConfusion h
    | ok f =>
      simp only [MCD.fit, hX, ho, Except.ok.injEq] at h
      refine ⟨X', f, rfl, ho, ?_⟩
      rw [← h]
      rfl

theorem fit_err_inv (oracle : MCDOracle) (m : MCD) (X : Mat) (y : Option (List ℕ))
    (e : PyErr) (s : MCD) (h : MCD.fit oracle m X y = .error (e, s)) :
    (check_array X = .error e ∧ s = m) ∨
    (∃ X', check_array X = .ok X' ∧ oracle m.params X' = .error e ∧
      s = { m with
        classes_ := some (set_n_classes y)
        detector_ := some (.unfitted m.params) }) := by
  cases hX : check_array X with
  | error e' =>
    simp only [MCD.fit, hX, Except.error.injEq, Prod.mk.injEq] at h
    obtain ⟨he, hs⟩ := h
    subst he
    subst hs
    exact Or.inl ⟨rfl, rfl⟩
  | ok X' =>
    cases ho : oracle m.params X' with
    | error e' =>
      simp only [MCD.fit, hX, ho, Except.error.injEq, Prod.mk.injEq] at h
      obtain ⟨he, hs⟩ := h
      subst he
      subst hs
      exact Or.inr ⟨X', rfl, ho, rfl⟩
    | ok f =>
      simp only [MCD.fit, hX, ho] at h
      exact Except.noConfusion h

theorem demo_outCount : outCount 3 (2/5 : ℚ) = 1 := by
  unfold outCount
  norm_num [round_eq]

theorem demo_scoreOrder : scoreOrder [5, 1, 9] = [(1, 1), (0, 5), (2, 9)] := by decide

theorem demo_outlierIndices : outlierIndices [5, 1, 9] (2/5 : ℚ) = [2] := by
  unfold outlierIndices
  rw [demo_scoreOrder]
  norm_num [demo_outCount]

theorem demo_mcdLabels : mcdLabels [5, 1, 9] (2/5 : ℚ) = [0, 0, 1] := by
  unfold mcdLabels
  rw [demo_outlierIndices]
  decide

theorem demo_mcdThreshold : mcdThreshold [5, 1, 9] (2/5 : ℚ) = 9 := by
  unfold mcdThreshold
  rw [show List.length [(5:ℚ), 1, 9] = 3 from rfl, demo_outCount]
  decide

theorem demo_fit_eq_y (y : Option (List ℕ)) :
    MCD.fit demoOracle demoMCD demoX y =
      .ok { demoFittedMCD with classes_ := some (set_n_classes y) } := by
  rw [fit_ok demoOracle demoMCD demoX demoX y demoFitted rfl rfl]
  show Except.ok _ = _
  rw [show demoMCD.contamination = (2/5 : ℚ) from rfl]
  rw [show demoFitted.dist_ = [(5:ℚ), 1, 9] from rfl]
  rw [demo_mcdLabels, demo_mcdThreshold]
  rfl

theorem demo_fit_eq : MCD.fit demoOracle demoMCD demoX none = .ok demoFittedMCD := by
  rw [demo_fit_eq_y none]
  rfl

theorem demo_refit_eq : MCD.fit demoOracle demoFittedMCD demoX none = .ok demoFittedMCD := by
  rw [fit_ok demoOracle demoFittedMCD demoX demoX none demoFitted rfl rfl]
  show Except.ok _ = _
  rw [show demoFittedMCD.contamination = (2/5 : ℚ) from rfl]
  rw [show demoFitted.dist_ = [(5:ℚ), 1, 9] from rfl]
  rw [demo_mcdLabels, demo_mcdThreshold]
  rfl

/-- C1: for every valid 2-D numeric input `X`, `fit(X, y)` constructs a new
robust-covariance estimator from the stored configuration, fits it on `X`,
sets `decision_scores_` to the estimator's per-sample distance array,
derives `threshold_` and `labels_` from it, and returns the wrapper
itself. -/
theorem MCD.fit_sets_scores_threshold_labels (oracle : MCDOracle) (m : MCD)
    (X X' : Mat) (y : Option (List ℕ)) (f : FittedMCD)
    (hX : check_array X = .ok X') (ho : oracle m.params X' = .ok f) :
    ∃ s : MCD, MCD.fit oracle m X y = .ok s ∧
      s.detector_ = some (.fitted f) ∧
      s.decision_scores_ = some f.dist_ ∧
      s.threshold_ = some (mcdThreshold f.dist_ m.contamination) ∧
      s.labels_ = some (mcdLabels f.dist_ m.contamination) :=
  ⟨_, fit_ok oracle m X X' y f hX ho, rfl, rfl, rfl, rfl⟩

/-- Witness for C1 at a concrete configuration, data set and oracle. -/
theorem MCD.fit_sets_scores_threshold_labels_witness :
    ∃ s : MCD, MCD.fit demoOracle demoMCD demoX none = .ok s ∧
      s.detector_ = some (.fitted demoFitted) ∧
      s.decision_scores_ = some demoFitted.dist_ ∧
      s.threshold_ = some (mcdThreshold demoFitted.dist_ demoMCD.contamination) ∧
      s.labels_ = some (mcdLabels demoFitted.dist_ demoMCD.contamination) :=
  MCD.fit_sets_scores_threshold_labels demoOracle demoMCD demoX demoX none
    demoFitted rfl rfl

/-- C3: `decision_function` on a wrapper on which `fit` has not completed
successfully (`decision_scores_`, `threshold_`, `labels_` not all present)
fails with the not-fitted error, for every input. -/
theorem MCD.decision_function_unfitted (m : MCD) (X : Mat)
    (h : ¬ (m.decision_scores_.isSome = true ∧ m.threshold_.isSome = true ∧
      m.labels_.isSome = true)) :
    m.decision_function X = .error .notFitted := by
  have hf : ¬ check_is_fitted m = true := by
    intro hc
    simp only [check_is_fitted, Bool.and_eq_true] at hc
    exact h ⟨hc.1.1, hc.1.2, hc.2⟩
  unfold MCD.decision_function
  rw [if_neg hf]

/-- Witness for C3: a freshly constructed wrapper rejects a well-formed
input with the not-fitted error. -/
theorem MCD.decision_function_unfitted_witness :
    demoMCD.decision_function demoX = .error .notFitted :=
  MCD.decision_function_unfitted demoMCD demoX (by decide)

/-- C10: the fitted-state check runs before input validation — on an
unfitted wrapper, `decision_function` reports the not-fitted error even on
an input that fails array validation. -/
theorem MCD.decision_function_guard_order (m : MCD) (X : Mat)
    (hunfit : check_is_fitted m = false)
    (_hbad : check_array X = .error .invalidInput) :
    m.decision_function X = .error .notFitted := by
  unfold MCD.decision_function
  rw [hunfit]
  simp

/-- Witness for C10: an unfitted wrapper with a ragged (malformed) input
still reports the not-fitted error, not the invalid-input error. -/
theorem MCD.decision_function_guard_order_witness :
    demoMCD.decision_function [[1, 2], [3]] = .error .notFitted :=
  MCD.decision_function_guard_order demoMCD [[1, 2], [3]] rfl rfl

/-- C4: after a successful `fit`, each of the seven fitted-attribute
accessors returns exactly the corresponding attribute of the fitted
estimator; before `fit` completes (no fitted estimator is held), each
fails with the not-fitted error. -/
theorem MCD.accessors_forward_or_notFitted (oracle : MCDOracle) (m m' : MCD)
    (X X' : Mat) (y : Option (List ℕ)) (f : FittedMCD) (s : MCD)
    (hunfit : ∀ g : FittedMCD, m'.detector_ ≠ some (.fitted g))
    (hX : check_array X = .ok X') (ho : oracle m.params X' = .ok f)
    (hfit : MCD.fit oracle m X y = .ok s) :
    (m'.raw_location_ = .error .notFitted ∧ m'.raw_covariance_ = .error .notFitted ∧
     m'.raw_support_ = .error .notFitted ∧ m'.location_ = .error .notFitted ∧
     m'.covariance_ = .error .notFitted ∧ m'.precision_ = .error .notFitted ∧
     m'.support_ = .error .notFitted) ∧
    (s.raw_location_ = .ok f.raw_location_ ∧ s.raw_covariance_ = .ok f.raw_covariance_ ∧
     s.raw_support_ = .ok f.raw_support_ ∧ s.location_ = .ok f.location_ ∧
     s.covariance_ = .ok f.covariance_ ∧ s.precision_ = .ok f.precision_ ∧
     s.support_ = .ok f.support_) := by
  constructor
  · rcases hd : m'.detector_ with _ | (p | g)
    · exact ⟨by simp [MCD.raw_location_, hd], by simp [MCD.raw_covariance_, hd],
        by simp [MCD.raw_support_, hd], by simp [MCD.location_, hd],
        by simp [MCD.covariance_, hd], by simp [MCD.precision_, hd],
        by simp [MCD.support_, hd]⟩
    · exact ⟨by simp [MCD.raw_location_, hd], by simp [MCD.raw_covariance_, hd],
        by simp [MCD.raw_support_, hd], by simp [MCD.location_, hd],
        by simp [MCD.covariance_, hd], by simp [MCD.precision_, hd],
        by simp [MCD.support_, hd]⟩
    · exact absurd hd (hunfit g)
  · rw [fit_ok oracle m X X' y f hX ho] at hfit
    have hs := (Except.ok.injEq _ _).mp hfit
    rw [← hs]
    exact ⟨rfl, rfl, rfl, rfl, rfl, rfl, rfl⟩

/-- Witness for C4: a freshly constructed wrapper has all seven accessors
failing, and the same wrapper fitted on concrete data forwards the seven
attributes of the concrete fitted estimator. -/
theorem MCD.accessors_forward_or_notFitted_witness :
    (demoMCD.raw_location_ = .error .notFitted ∧
     demoMCD.raw_covariance_ = .error .notFitted ∧
     demoMCD.raw_support_ = .error .notFitted ∧
     demoMCD.location_ = .error .notFitted ∧
     demoMCD.covariance_ = .error .notFitted ∧
     demoMCD.precision_ = .error .notFitted ∧
     demoMCD.support_ = .error .notFitted) ∧
    (demoFittedMCD.raw_location_ = .ok demoFitted.raw_location_ ∧
     demoFittedMCD.raw_covariance_ = .ok demoFitted.raw_covariance_ ∧
     demoFittedMCD.raw_support_ = .ok demoFitted.raw_support_ ∧
     demoFittedMCD.location_ = .ok demoFitted.location_ ∧
     demoFittedMCD.covariance_ = .ok demoFitted.covariance_ ∧
     demoFittedMCD.precision_ = .ok demoFitted.precision_ ∧
     demoFittedMCD.support_ = .ok demoFitted.support_) :=
  MCD.accessors_forward_or_notFitted demoOracle demoMCD demoMCD demoX demoX none
    demoFitted demoFittedMCD (by intro g h; exact Option.noConfusion h)
    rfl rfl demo_fit_eq


theorem decision_function_fitted_eq (m : MCD) (X : Mat) (f : FittedMCD)
    (hfit : check_is_fitted m = true) (hdet : m.detector_ = some (.fitted f))
    (hX : check_array X = .ok X) :
    m.decision_function X = f.mahalanobis X := by
  unfold MCD.decision_function
  rw [if_pos hfit, hX, hdet]

/-- C5: on a wrapper fitted on data with `d` features, `decision_function`
fails with the invalid-input error on every well-formed input whose feature
count differs from `d`. -/
theorem MCD.decision_function_feature_mismatch (oracle : MCDOracle) (m : MCD)
    (Xtr Xtr' X : Mat) (y : Option (List ℕ)) (f : FittedMCD) (s : MCD) (d e : ℕ)
    (hXtr : check_array Xtr = .ok Xtr') (ho : oracle m.params Xtr' = .ok f)
    (hd : f.location_.length = d)
    (hfit : MCD.fit oracle m Xtr y = .ok s)
    (hX : check_array X = .ok X)
    (hrows : ∀ r ∈ X, r.length = e) (hne : e ≠ d) :
    s.decision_function X = .error .invalidInput := by
  rw [fit_ok oracle m Xtr Xtr' y f hXtr ho] at hfit
  have hs := (Except.ok.injEq _ _).mp hfit
  have hfitted : check_is_fitted s = true := by rw [← hs]; rfl
  have hdet : s.detector_ = some (.fitted f) := by rw [← hs]
  obtain ⟨-, hnonempty, -⟩ := check_array_ok_iff X X hX
  cases X with
  | nil => exact absurd rfl hnonempty
  | cons x xs =>
    rw [decision_function_fitted_eq s (x :: xs) f hfitted hdet hX]
    refine mahalanobis_mismatch f x xs ?_
    rw [hrows x (List.mem_cons_self x xs), hd]
    exact hne

/-- Witness for C5: a wrapper fitted on two-feature data rejects a
three-feature input with the invalid-input error. -/
theorem MCD.decision_function_feature_mismatch_witness :
    demoFittedMCD.decision_function [[1, 2, 3]] = .error .invalidInput :=
  MCD.decision_function_feature_mismatch demoOracle demoMCD demoX demoX
    [[1, 2, 3]] none demoFitted demoFittedMCD 2 3 rfl rfl rfl demo_fit_eq rfl
    (by decide) (by decide)

/-- C9: on a fitted wrapper, `decision_function` returns one Mahalanobis
distance per input row, computed against the location and precision
estimated during fit; the embedding is a pure function of the wrapper
state (the source method performs no assignment), so the wrapper state is
unchanged by the call. -/
theorem MCD.decision_function_output (m : MCD) (X : Mat) (f : FittedMCD)
    (hfit : check_is_fitted m = true)
    (hdet : m.detector_ = some (.fitted f))
    (hX : check_array X = .ok X)
    (hrows : ∀ r ∈ X, r.length = f.location_.length) :
    m.decision_function X = .ok (X.map (mahaDist f)) ∧
      (X.map (mahaDist f)).length = X.length := by
  refine ⟨?_, List.length_map X (mahaDist f)⟩
  unfold MCD.decision_function
  rw [if_pos hfit, hX, hdet]
  exact mahalanobis_ok f X hrows

/-- Witness for C9 on a fitted wrapper and a concrete two-row input. -/
theorem MCD.decision_function_output_witness :
    demoFittedMCD.decision_function [[1, 3], [0, 2]] =
      .ok ([[1, 3], [0, 2]].map (mahaDist demoFitted)) ∧
      ([[1, 3], [0, 2]].map (mahaDist demoFitted)).length =
        ([[1, 3], [0, 2]] : Mat).length :=
  MCD.decision_function_output demoFittedMCD [[1, 3], [0, 2]] demoFitted
    rfl rfl rfl (by decide)

/-- C7: `y` is used only to record the number of distinct classes: fitting
with any other `y` yields the same state except for the recorded class
count — `decision_scores_`, `threshold_`, `labels_` and the fitted
estimator are identical. -/
theorem MCD.fit_y_bookkeeping_only (oracle : MCDOracle) (m : MCD) (X : Mat)
    (y1 y2 : Option (List ℕ)) (s1 : MCD)
    (h1 : MCD.fit oracle m X y1 = .ok s1) :
    s1.classes_ = some (set_n_classes y1) ∧
    MCD.fit oracle m X y2 = .ok { s1 with classes_ := some (set_n_classes y2) } ∧
    ({ s1 with classes_ := some (set_n_classes y2) } : MCD).decision_scores_ =
      s1.decision_scores_ ∧
    ({ s1 with classes_ := some (set_n_classes y2) } : MCD).threshold_ = s1.threshold_ ∧
    ({ s1 with classes_ := some (set_n_classes y2) } : MCD).labels_ = s1.labels_ ∧
    ({ s1 with classes_ := some (set_n_classes y2) } : MCD).detector_ = s1.detector_ := by
  obtain ⟨X', f, hX, ho, hs⟩ := fit_ok_inv oracle m X y1 s1 h1
  subst hs
  refine ⟨rfl, ?_, rfl, rfl, rfl, rfl⟩
  rw [fit_ok oracle m X X' y2 f hX ho]

/-- Witness for C7: fitting with three-class labels versus no labels gives
states differing only in the recorded class count. -/
theorem MCD.fit_y_bookkeeping_only_witness :
    ({ demoFittedMCD with classes_ := some 3 } : MCD).classes_ =
      some (set_n_classes (some [0, 1, 2])) ∧
    MCD.fit demoOracle demoMCD demoX none =
      .ok { ({ demoFittedMCD with classes_ := some 3 } : MCD) with
        classes_ := some (set_n_classes none) } ∧
    ({ ({ demoFittedMCD with classes_ := some 3 } : MCD) with
        classes_ := some (set_n_classes none) } : MCD).decision_scores_ =
      ({ demoFittedMCD with classes_ := some 3 } : MCD).decision_scores_ ∧
    ({ ({ demoFittedMCD with classes_ := some 3 } : MCD) with
        classes_ := some (set_n_classes none) } : MCD).threshold_ =
      ({ demoFittedMCD with classes_ := some 3 } : MCD).threshold_ ∧
    ({ ({ demoFittedMCD with classes_ := some 3 } : MCD) with
        classes_ := some (set_n_classes none) } : MCD).labels_ =
      ({ demoFittedMCD with classes_ := some 3 } : MCD).labels_ ∧
    ({ ({ demoFittedMCD with classes_ := some 3 } : MCD) with
        classes_ := some (set_n_classes none) } : MCD).detector_ =
      ({ demoFittedMCD with classes_ := some 3 } : MCD).detector_ :=
  MCD.fit_y_bookkeeping_only demoOracle demoMCD demoX (some [0, 1, 2]) none
    { demoFittedMCD with classes_ := some 3 }
    (by rw [demo_fit_eq_y (some [0, 1, 2])]; rfl)

/-- C8: re-fitting an already-fitted wrapper on new data gives exactly the
state a freshly constructed wrapper with the same configuration reaches on
that data: no residual observable state from the prior fit. -/
theorem MCD.refit_equals_fresh_fit (oracle : MCDOracle) (m : MCD) (X : Mat)
    (y : Option (List ℕ)) (s : MCD)
    (h : MCD.fit oracle m X y = .ok s) :
    MCD.fit oracle
      (MCD.init m.contamination m.store_precision m.assume_centered
        m.support_fraction m.random_state) X y = .ok s := by
  obtain ⟨X', f, hX, ho, hs⟩ := fit_ok_inv oracle m X y s h
  subst hs
  rw [fit_ok oracle
    (MCD.init m.contamination m.store_precision m.assume_centered
      m.support_fraction m.random_state) X X' y f hX ho]
  rfl

/-- Witness for C8: re-fitting the fitted demo wrapper matches a fresh
wrapper's fit on the same data. -/
theorem MCD.refit_equals_fresh_fit_witness :
    MCD.fit demoOracle
      (MCD.init demoFittedMCD.contamination demoFittedMCD.store_precision
        demoFittedMCD.assume_centered demoFittedMCD.support_fraction
        demoFittedMCD.random_state) demoX none = .ok demoFittedMCD :=
  MCD.refit_equals_fresh_fit demoOracle demoFittedMCD demoX none demoFittedMCD
    demo_refit_eq

/-- C6 counterexample: a failed re-fit does leave partial modifications
behind — the call replaces the previously fitted estimator with a fresh
unfitted one (so `raw_location_` stops working) even though the old
`decision_scores_` survive, hence the resulting state differs from the
pre-call state. -/
theorem MCD.fit_failure_state_change_cex :
    MCD.fit failOracle demoFittedMCD demoX none =
      .error (.estimatorFailure,
        { demoFittedMCD with detector_ := some (.unfitted demoFittedMCD.params) }) ∧
    ({ demoFittedMCD with detector_ := some (.unfitted demoFittedMCD.params) } : MCD) ≠
      demoFittedMCD ∧
    ({ demoFittedMCD with
        detector_ := some (.unfitted demoFittedMCD.params) } : MCD).raw_location_ =
      .error .notFitted ∧
    demoFittedMCD.raw_location_ = .ok [1, 2] ∧
    ({ demoFittedMCD with
        detector_ := some (.unfitted demoFittedMCD.params) } : MCD).decision_scores_ =
      demoFittedMCD.decision_scores_ := by
  refine ⟨rfl, ?_, rfl, rfl, rfl⟩
  intro h
  have h2 := congrArg MCD.detector_ h
  simp only [] at h2
  exact Option.noConfusion h2 (fun h3 => DetectorState.noConfusion h3)

/-- C6 (amended): when the underlying estimator's fit fails, the failure
propagates unmodified with no retry and no fallback, and the failed call
produces no `decision_scores_`, `threshold_` or `labels_` (those fields
keep their pre-call values); however, the recorded class count is updated
and the estimator slot already holds the fresh unfitted estimator. -/
theorem MCD.fit_failure_propagates (oracle : MCDOracle) (m : MCD) (X X' : Mat)
    (y : Option (List ℕ)) (e : PyErr)
    (hX : check_array X = .ok X') (ho : oracle m.params X' = .error e) :
    MCD.fit oracle m X y = .error (e,
      { m with
        classes_ := some (set_n_classes y)
        detector_ := some (.unfitted m.params) }) := by
  simp only [MCD.fit, hX, ho]

/-- Witness for the amended C6 at a concrete failing oracle. -/
theorem MCD.fit_failure_propagates_witness :
    MCD.fit failOracle demoMCD demoX none = .error (.estimatorFailure,
      { demoMCD with
        classes_ := some (set_n_classes none)
        detector_ := some (.unfitted demoMCD.params) }) :=
  MCD.fit_failure_propagates failOracle demoMCD demoX demoX none
    .estimatorFailure rfl rfl

/-- C2: after a successful fit on `n` samples with contamination `c` in
(0, 1/2), `labels_` contains only 0 and 1, the number of 1-labels equals
`round(n * c)`, and `threshold_` is the entry at the `(1-c)` quantile
position (`n - round(n * c)`) of the scores sorted ascending. -/
theorem MCD.fit_labels_count_threshold (oracle : MCDOracle) (m : MCD)
    (X X' : Mat) (y : Option (List ℕ)) (f : FittedMCD) (s : MCD)
    (_h0 : 0 < m.contamination) (h1 : m.contamination < 1/2)
    (hX : check_array X = .ok X') (ho : oracle m.params X' = .ok f)
    (hn : f.dist_.length = X.length)
    (hfit : MCD.fit oracle m X y = .ok s) :
    s.labels_ = some (mcdLabels f.dist_ m.contamination) ∧
    (∀ l ∈ mcdLabels f.dist_ m.contamination, l = 0 ∨ l = 1) ∧
    (mcdLabels f.dist_ m.contamination).count 1 =
      (round ((X.length : ℚ) * m.contamination)).toNat ∧
    s.threshold_ = some ((f.dist_.insertionSort (fun a b => a ≤ b)).getD
      (X.length - (round ((X.length : ℚ) * m.contamination)).toNat) 0) := by
  rw [fit_ok oracle m X X' y f hX ho] at hfit
  have hs := (Except.ok.injEq _ _).mp hfit
  subst hs
  have hle : outCount f.dist_.length m.contamination ≤ f.dist_.length :=
    outCount_le _ _ h1
  refine ⟨rfl, mcdLabels_mem _ _, ?_, ?_⟩
  · rw [count_one_mcdLabels _ _ hle, outCount, hn]
  · show some (mcdThreshold f.dist_ m.contamination) = _
    rw [mcdThreshold, outCount, hn]

/-- Witness for C2 at the concrete demo fit (3 samples, contamination 2/5,
so one 1-label and the threshold at sorted position 2). -/
theorem MCD.fit_labels_count_threshold_witness :
    demoFittedMCD.labels_ = some (mcdLabels demoFitted.dist_ demoMCD.contamination) ∧
    (∀ l ∈ mcdLabels demoFitted.dist_ demoMCD.contamination, l = 0 ∨ l = 1) ∧
    (mcdLabels demoFitted.dist_ demoMCD.contamination).count 1 =
      (round ((demoX.length : ℚ) * demoMCD.contamination)).toNat ∧
    demoFittedMCD.threshold_ =
      some ((demoFitted.dist_.insertionSort (fun a b => a ≤ b)).getD
        (demoX.length - (round ((demoX.length : ℚ) * demoMCD.contamination)).toNat) 0) :=
  MCD.fit_labels_count_threshold demoOracle demoMCD demoX demoX none demoFitted
    demoFittedMCD (by norm_num [demoMCD, MCD.init]) (by norm_num [demoMCD, MCD.init])
    rfl rfl rfl demo_fit_eq
